import Mathlib

/-!
# glog configuration layer (config.go)

A shallow embedding of `config.go`: the `OutputType` enumeration with its text
codec (`String`, `MarshalText`, `UnmarshalText`) and `Apply`, which normalises a
`Config` against `DefaultConfig` and writes the result into the logging backend,
the package initializer `init`, and the struct tags of `Config` as
`reflect.StructTag.Lookup` reads them.

Conventions of the embedding:

* a Go `string` / `[]byte` is the list of its bytes (`GoString`), each byte a
  natural number; `lit` gives the bytes of an ASCII literal of the source;
* `OutputType` (a `uint16`) is a natural number; the uint16 values are the
  naturals below `65536`;
* Go `int` / `int32` fields are integers, with `isInt` / `isInt32` for their
  ranges and `int64` for the conversion `int64(x)`;
* a Go `error` is an `Option`, `none` being `nil`;
* the package-level variables `DefaultConfig`, `logging` and `logDirs` are
  passed explicitly in `Globals`;
* `Apply` reads `c.VerbosityModulePatterns`, which the declaration of `Config`
  lacks; `Config` carries it as a field of its own, unrelated to
  `VerbosityModules`.
-/

namespace Glog

/-! ## Go strings and the library functions the file calls -/

/-- A Go string (or byte slice): the sequence of its bytes. -/
abbrev GoString := List Nat

/-- The bytes of an ASCII literal of the source text. -/
def lit (s : String) : GoString := s.toList.map Char.toNat

/-- A Go error value: none is nil. -/
abbrev error := Option GoString

/-- The byte is an ASCII upper-case letter: 'A' <= c && c <= 'Z'. -/
def isUpperASCII (c : Nat) : Bool := decide (65 ≤ c) && decide (c ≤ 90)

/-- The scan at the head of strings.ToLower: no byte is >= utf8.RuneSelf (0x80). -/
def isASCII (s : GoString) : Bool := s.all (fun c => decide (c < 128))

/-- The flag hasUpper of strings.ToLower: some byte is an ASCII upper-case letter. -/
def hasUpper (s : GoString) : Bool := s.any isUpperASCII

/-- The ASCII branch of strings.ToLower: every byte in 'A'..'Z' gets 'a' - 'A'
added, every other byte is copied. -/
def lowerASCII (s : GoString) : GoString :=
  s.map (fun c => if isUpperASCII c then c + 32 else c)

/-- Go's strings.ToLower. On an ASCII-only string it returns the string itself
when it has no upper-case letter and otherwise lower-cases the letters 'A'..'Z';
on any other string it returns Map(unicode.ToLower, s), which depends on the
Unicode tables of the Go library and is the parameter `unicodeMap`. -/
def ToLower (unicodeMap : GoString → GoString) (s : GoString) : GoString :=
  if isASCII s then
    if !hasUpper s then s else lowerASCII s
  else unicodeMap s

/-! ## OutputType -/

/-- The type OutputType (uint16). -/
abbrev OutputType := Nat

/-- OutputFile logs output to a file (iota = 0). -/
def OutputFile : OutputType := 0

/-- OutputStdErr logs output to stderr (iota = 1). -/
def OutputStdErr : OutputType := 1

/-- OutputBoth logs output to a file and stderr (iota = 2). -/
def OutputBoth : OutputType := 2

/-- The method String of OutputType. -/
def OutputType.String (ot : OutputType) : GoString :=
  if ot = OutputFile then lit "File"
  else if ot = OutputStdErr then lit "StdErr"
  else if ot = OutputBoth then lit "Both"
  else lit "Unknown"

/-- The method MarshalText of OutputType: the bytes of String() and a nil error. -/
def OutputType.MarshalText (ot : OutputType) : GoString × error :=
  (OutputType.String ot, none)

/-- The method UnmarshalText of OutputType, on a receiver holding `ot`: the value
the receiver holds afterwards and the returned error. -/
def OutputType.UnmarshalText (unicodeMap : GoString → GoString) (ot : OutputType)
    (text : GoString) : OutputType × error :=
  let s := ToLower unicodeMap text
  let ot :=
    if s = lit "file" then OutputFile
    else if s = lit "stderr" then OutputStdErr
    else if s = lit "both" then OutputBoth
    else ot
  (ot, none)

/-- One of the three defined variants. -/
def isVariant (ot : OutputType) : Prop :=
  ot = OutputFile ∨ ot = OutputStdErr ∨ ot = OutputBoth

/-- The text is the lower-case word `w` with each letter independently kept or
replaced by its upper-case form (the byte 32 below). -/
def caseVariantOf (w text : GoString) : Prop :=
  List.Forall₂ (fun l c => c = l ∨ c + 32 = l) w text

/-- The word is made of lower-case ASCII letters only. -/
def isLowerWord (w : GoString) : Prop := ∀ c ∈ w, 97 ≤ c ∧ c ≤ 122

/-! ## Integers and strconv.FormatInt, strings.Join -/

/-- The range of a Go int (64 bits wide; a 32-bit int lies inside it). -/
def isInt (x : Int) : Prop := -9223372036854775808 ≤ x ∧ x < 9223372036854775808

/-- The range of a Go int32. -/
def isInt32 (x : Int) : Prop := -2147483648 ≤ x ∧ x < 2147483648

/-- The conversion int64(x): the value of x in two's complement on 64 bits. -/
def int64 (x : Int) : Int :=
  (x + 9223372036854775808) % 18446744073709551616 - 9223372036854775808

/-- The byte "0123456789abcdefghijklmnopqrstuvwxyz"[d]. -/
def digit (d : Nat) : Nat := if d < 10 then 48 + d else 87 + d

/-- The digit loop of strconv's formatBits: while u >= base the digit of
u % base is written in front of what is already written and u is divided by
base; the last digit written is that of u. The first argument bounds the number
of rounds; u + 1 rounds always suffice. -/
def formatBits (base : Nat) : Nat → Nat → GoString → GoString
  | 0, _, acc => acc
  | fuel + 1, u, acc =>
    if u < base then digit u :: acc
    else formatBits base fuel (u / base) (digit (u % base) :: acc)

/-- Go's strconv.FormatInt(i, base) for a base in 2..36 (config.go passes 10):
the digits of the magnitude of i, after a '-' when i is negative. -/
def FormatInt (i : Int) (base : Nat) : GoString :=
  if i < 0 then 45 :: formatBits base (i.natAbs + 1) i.natAbs []
  else formatBits base (i.natAbs + 1) i.natAbs []

/-- Go's strings.Join: the empty string for no element, else the first element
followed, for each further element, by the separator and the element. -/
def Join (elems : List GoString) (sep : GoString) : GoString :=
  match elems with
  | [] => []
  | e :: rest => rest.foldl (fun b s => b ++ sep ++ s) e

/-- The value a string of decimal digits denotes. -/
def decimalValue (s : GoString) : Nat := s.foldl (fun a c => 10 * a + (c - 48)) 0

/-! ## Config, the backend state and Apply -/

/-- An element of Config.VerbosityModules. -/
structure VerbosityModule where
  Module : GoString
  Verbosity : Int
deriving DecidableEq, Repr

/-- The struct Config. The declaration in config.go has the fields Output,
OutputDir, Verbosity, VerbosityModules and StdErrThreshold. Apply also reads
c.VerbosityModulePatterns, a list of strings (it is the first argument of
strings.Join), which the declaration lacks and no statement of config.go assigns;
the field is carried here so that Apply can be stated, and a Config written with
the declared fields only holds its zero value, the empty list. -/
structure Config where
  Output : OutputType
  OutputDir : GoString
  Verbosity : Int
  VerbosityModules : List VerbosityModule
  VerbosityModulePatterns : List GoString := []
  StdErrThreshold : Int
deriving DecidableEq, Repr

/-- The spec's serialisation of the per-module verbosity list: the entries in
their original order, each rendered as "module=level" (the Module string, '=', the
decimal Verbosity), separated by a single comma. It follows the words of the spec;
no statement of config.go computes it. -/
def specModuleString : List VerbosityModule → GoString
  | [] => []
  | [e] => e.Module ++ lit "=" ++ FormatInt e.Verbosity 10
  | e :: e2 :: rest =>
    e.Module ++ lit "=" ++ FormatInt e.Verbosity 10 ++ lit "," ++ specModuleString (e2 :: rest)

/-- The part of the backend variable `logging` that Apply writes. The two flags
are the fields of that name; stderrThreshold, verbosity and vmodule hold the
string passed to the latest call of the Set method of the field of that name. -/
structure loggingT where
  toStderr : Bool
  alsoToStderr : Bool
  stderrThreshold : GoString
  verbosity : GoString
  vmodule : GoString
deriving DecidableEq, Repr

/-- The package-level variables config.go reads and writes. -/
structure Globals where
  DefaultConfig : Config
  logging : loggingT
  logDirs : List GoString
deriving DecidableEq, Repr

/-- The function Apply: the package-level variables after Apply(c). -/
def Apply (g : Globals) (c : Config) : Globals :=
  -- Normalize values
  let c := if c.StdErrThreshold = 0 then
      { c with StdErrThreshold := g.DefaultConfig.StdErrThreshold } else c
  let c := if c.Verbosity = 0 then
      { c with Verbosity := g.DefaultConfig.Verbosity } else c
  let c := if c.OutputDir = [] then
      { c with OutputDir := g.DefaultConfig.OutputDir } else c
  -- Mimic flag.Set
  let l := g.logging
  let l := { l with toStderr := decide (c.Output = OutputStdErr) }
  let l := { l with alsoToStderr := decide (c.Output = OutputBoth) }
  let l := { l with stderrThreshold := FormatInt (int64 c.StdErrThreshold) 10 }
  let l := { l with verbosity := FormatInt (int64 c.Verbosity) 10 }
  let l := { l with vmodule := Join c.VerbosityModulePatterns (lit ",") }
  { g with logging := l, logDirs := [c.OutputDir] }

/-! ## Package initialization -/

/-- The zero value of Config, which the variable DefaultConfig holds when init
starts. -/
def zeroConfig : Config :=
  { Output := 0, OutputDir := [], Verbosity := 0, VerbosityModules := [],
    StdErrThreshold := 0 }

/-- The package-level variables when init starts: DefaultConfig is the zero
Config; the backend variables, which other files of the package own, hold
whatever they hold. -/
def startGlobals (l : loggingT) (dirs : List GoString) : Globals :=
  { DefaultConfig := zeroConfig, logging := l, logDirs := dirs }

/-- The function init; `tempDir` is the string os.TempDir() returns. -/
def init (tempDir : GoString) (g : Globals) : Globals :=
  let g := { g with DefaultConfig := { g.DefaultConfig with Verbosity := 9000 } }
  let g := { g with DefaultConfig := { g.DefaultConfig with StdErrThreshold := 3 } }
  let g := { g with DefaultConfig := { g.DefaultConfig with Output := OutputStdErr } }
  let g := { g with DefaultConfig := { g.DefaultConfig with OutputDir := tempDir } }
  Apply g g.DefaultConfig

/-! ## A call of Apply, with the caller's value kept apart from the parameter -/

/-- The variables in play while a call Apply(x) runs: the caller's Config value,
the parameter c of Apply (a copy of it, the variable the body assigns to) and
the package-level variables. -/
structure ApplyFrame where
  caller : Config
  c : Config
  globals : Globals
deriving DecidableEq, Repr

/-- The body of Apply, statement by statement, on the variables of the call. -/
def ApplyBody (f : ApplyFrame) : ApplyFrame :=
  let f := if f.c.StdErrThreshold = 0 then
      { f with c := { f.c with StdErrThreshold := f.globals.DefaultConfig.StdErrThreshold } }
    else f
  let f := if f.c.Verbosity = 0 then
      { f with c := { f.c with Verbosity := f.globals.DefaultConfig.Verbosity } }
    else f
  let f := if f.c.OutputDir = [] then
      { f with c := { f.c with OutputDir := f.globals.DefaultConfig.OutputDir } }
    else f
  let f := { f with globals := { f.globals with logging :=
      { f.globals.logging with toStderr := decide (f.c.Output = OutputStdErr) } } }
  let f := { f with globals := { f.globals with logging :=
      { f.globals.logging with alsoToStderr := decide (f.c.Output = OutputBoth) } } }
  let f := { f with globals := { f.globals with logging :=
      { f.globals.logging with
        stderrThreshold := FormatInt (int64 f.c.StdErrThreshold) 10 } } }
  let f := { f with globals := { f.globals with logging :=
      { f.globals.logging with verbosity := FormatInt (int64 f.c.Verbosity) 10 } } }
  let f := { f with globals := { f.globals with logging :=
      { f.globals.logging with vmodule := Join f.c.VerbosityModulePatterns (lit ",") } } }
  { f with globals := { f.globals with logDirs := [f.c.OutputDir] } }

/-- The call Apply(x): the parameter starts as a copy of the caller's value. -/
def callApply (g : Globals) (x : Config) : ApplyFrame :=
  ApplyBody { caller := x, c := x, globals := g }

/-! ## Struct tags and reflect.StructTag.Lookup -/

/-- The loop "scan to colon" of StructTag.Lookup: the number of leading bytes
that are above ' ' and are none of ':', '"' and 0x7f. -/
def scanName : GoString → Nat
  | [] => 0
  | c :: t => if 32 < c ∧ c ≠ 58 ∧ c ≠ 34 ∧ c ≠ 127 then scanName t + 1 else 0

/-- The loop "scan quoted string" of StructTag.Lookup on the bytes after the
opening quote: how far the index moves before it stands on a '"' or leaves the
string; a backslash makes it skip the following byte. -/
def scanQuoted : GoString → Nat
  | [] => 0
  | [c] => if c = 34 then 0 else if c = 92 then 2 else 1
  | c :: d :: t =>
    if c = 34 then 0
    else if c = 92 then 2 + scanQuoted t
    else 1 + scanQuoted (d :: t)

/-- Go's strconv.Unquote on a double-quoted string without escape sequences: the
bytes between the quotes. A string that is not of that form gives none (escape
sequences are not interpreted here; the tags of config.go contain none). -/
def Unquote (q : GoString) : Option GoString :=
  match q with
  | 34 :: rest =>
    if rest.getLast? = some 34 ∧ (rest.dropLast).all (fun c => c ≠ 34 ∧ c ≠ 92 ∧ c ≠ 10)
    then some rest.dropLast else none
  | _ => none

/-- The loop of reflect.StructTag.Lookup: none is the result ("", false), some v
the result (v, true). Each round skips leading spaces, reads a name up to a colon
and a quoted value, and either returns the value (the name is the key) or goes on
with what follows the value. The first argument bounds the number of rounds. -/
def lookupLoop (key : GoString) : Nat → GoString → Option GoString
  | 0, _ => none
  | fuel + 1, tag =>
    let tag := tag.dropWhile (fun c => c = 32)
    if tag = [] then none
    else
      let i := scanName tag
      if i = 0 ∨ i + 1 ≥ tag.length ∨ tag.getD i 0 ≠ 58 ∨ tag.getD (i + 1) 0 ≠ 34 then none
      else
        let name := tag.take i
        let tag := tag.drop (i + 1)
        let i := 1 + scanQuoted (tag.drop 1)
        if i ≥ tag.length then none
        else
          let qvalue := tag.take (i + 1)
          let tag := tag.drop (i + 1)
          if key = name then Unquote qvalue
          else lookupLoop key fuel tag

/-- Go's reflect.StructTag.Lookup(key) on the tag string. -/
def StructTag.Lookup (tag key : GoString) : Option GoString :=
  lookupLoop key (tag.length + 1) tag

/-- The tag of Config.Output. -/
def tag_Output : GoString := lit "toml:\"output\",json:\"output\""

/-- The tag of Config.OutputDir. -/
def tag_OutputDir : GoString := lit "toml:\"output_dir\",json:\"output_dir\""

/-- The tag of Config.Verbosity. -/
def tag_Verbosity : GoString := lit "toml:\"verbosity\",json:\"verbosity\""

/-- The tag of the field Module of an element of Config.VerbosityModules. -/
def tag_Module : GoString := lit "toml:\"module\",json:\"module\""

/-- The tag of the field Verbosity of an element of Config.VerbosityModules. -/
def tag_ModuleVerbosity : GoString := lit "toml:\"verbosity\",json:\"verbosity\""

/-- The tag of Config.VerbosityModules. -/
def tag_VerbosityModules : GoString :=
  lit "toml:\"verbosity_modules\",json:\"verbosity_modules\""

/-- The tag of Config.StdErrThreshold. -/
def tag_StdErrThreshold : GoString := lit "toml:\"-\",json:\"-\""

/-- The tag of Config.Output with the two pairs separated by a space, the form
StructTag.Lookup reads. -/
def tag_Output_spaced : GoString := lit "toml:\"output\" json:\"output\""

/-! ## Example inputs -/

/-- A state of the package-level variables in which DefaultConfig.Verbosity has
been changed from 9000 to 42 and the backend holds earlier settings. -/
def exampleGlobals : Globals :=
  { DefaultConfig := { Output := OutputStdErr, OutputDir := lit "/tmp", Verbosity := 42,
                       VerbosityModules := [], StdErrThreshold := 3 },
    logging := { toStderr := true, alsoToStderr := true, stderrThreshold := lit "1",
                 verbosity := lit "7", vmodule := lit "old=1" },
    logDirs := [lit "/a", lit "/b"] }

/-- A Config that leaves Verbosity, StdErrThreshold and OutputDir unset. -/
def exampleUnset : Config :=
  { Output := OutputBoth, OutputDir := [], Verbosity := 0,
    VerbosityModules := [], StdErrThreshold := 0 }

/-- A fully specified Config. -/
def exampleSet : Config :=
  { Output := OutputFile, OutputDir := lit "/var/log/app", Verbosity := -12,
    VerbosityModules := [⟨lit "net", 2⟩, ⟨lit "auth", 5⟩], StdErrThreshold := 2 }

/-- A state of the package-level variables whose DefaultConfig lists a module
and has other defaults than exampleGlobals. -/
def exampleGlobalsModules : Globals :=
  { DefaultConfig := { Output := OutputFile, OutputDir := lit "/srv", Verbosity := 1,
                       VerbosityModules := [⟨lit "db", 3⟩], StdErrThreshold := 1 },
    logging := { toStderr := false, alsoToStderr := false, stderrThreshold := lit "0",
                 verbosity := lit "0", vmodule := [] },
    logDirs := [] }

/-- A Config whose Output is outside the three variants. -/
def exampleOutOfRange : Config :=
  { Output := 7, OutputDir := lit "/var/log/app", Verbosity := 1,
    VerbosityModules := [], StdErrThreshold := 1 }

/-! ## Lemmas on ToLower -/

/-- Without an upper-case letter the ASCII branch copies every byte. -/
theorem lowerASCII_of_not_hasUpper (s : GoString) (h : hasUpper s = false) :
    lowerASCII s = s := by
  induction s with
  | nil => rfl
  | cons c t ih =>
    simp only [hasUpper, List.any_cons, Bool.or_eq_false_iff] at h
    have ht : lowerASCII t = t := ih (by simpa [hasUpper] using h.2)
    simp only [lowerASCII, List.map_cons, h.1] at ht ⊢
    simp [ht]

/-- On an ASCII-only string ToLower is the byte-wise lower-casing, whatever the
Unicode branch does. -/
theorem ToLower_of_isASCII (u : GoString → GoString) (s : GoString)
    (h : isASCII s = true) : ToLower u s = lowerASCII s := by
  unfold ToLower
  rw [if_pos h]
  cases hu : hasUpper s with
  | false => simp [lowerASCII_of_not_hasUpper s hu]
  | true => simp

/-- A case variant of a lower-case word is ASCII and lower-cases to the word. -/
theorem caseVariantOf_lower (w text : GoString) (hw : isLowerWord w)
    (h : caseVariantOf w text) : isASCII text = true ∧ lowerASCII text = w := by
  unfold caseVariantOf at h
  induction h with
  | nil => exact ⟨rfl, rfl⟩
  | @cons l c w t hc _ ih =>
    have hl : 97 ≤ l ∧ l ≤ 122 := hw l (List.mem_cons_self l w)
    have hrest := ih (fun x hx => hw x (List.mem_cons_of_mem l hx))
    have hA : isASCII (c :: t) = true := by
      have h1 : c < 128 := by omega
      have h2 := hrest.1
      simp only [isASCII, List.all_cons, Bool.and_eq_true, decide_eq_true_eq] at h2 ⊢
      exact ⟨h1, h2⟩
    refine ⟨hA, ?_⟩
    have h3 := hrest.2
    simp only [lowerASCII, List.map_cons] at h3 ⊢
    rw [h3]
    rcases hc with hc | hc
    · have hu : isUpperASCII c = false := by
        simp only [isUpperASCII, Bool.and_eq_false_iff, decide_eq_false_iff_not]
        omega
      rw [hu, hc]
      rfl
    · have hu : isUpperASCII c = true := by
        simp only [isUpperASCII, Bool.and_eq_true, decide_eq_true_eq]
        omega
      rw [hu, if_pos rfl, hc]

/-- ToLower maps every case variant of a lower-case word to the word. -/
theorem ToLower_caseVariantOf (u : GoString → GoString) (w text : GoString)
    (hw : isLowerWord w) (h : caseVariantOf w text) : ToLower u text = w := by
  have := caseVariantOf_lower w text hw h
  rw [ToLower_of_isASCII u text this.1, this.2]

theorem isLowerWord_file : isLowerWord (lit "file") := by
  intro c hc
  simp only [lit, String.toList, List.map_cons, List.map_nil, List.mem_cons,
    List.mem_nil_iff, or_false] at hc
  rcases hc with h | h | h | h <;> subst h <;> decide

theorem isLowerWord_stderr : isLowerWord (lit "stderr") := by
  intro c hc
  simp only [lit, String.toList, List.map_cons, List.map_nil, List.mem_cons,
    List.mem_nil_iff, or_false] at hc
  rcases hc with h | h | h | h | h | h <;> subst h <;> decide

theorem isLowerWord_both : isLowerWord (lit "both") := by
  intro c hc
  simp only [lit, String.toList, List.map_cons, List.map_nil, List.mem_cons,
    List.mem_nil_iff, or_false] at hc
  rcases hc with h | h | h | h <;> subst h <;> decide

/-! ## The text codec of OutputType -/

/-- The case "file" of the switch in UnmarshalText. -/
theorem UnmarshalText_of_file (u : GoString → GoString) (r : OutputType) (text : GoString)
    (h : ToLower u text = lit "file") :
    OutputType.UnmarshalText u r text = (OutputFile, none) := by
  simp only [OutputType.UnmarshalText, h]
  rw [if_pos trivial]

/-- The case "stderr" of the switch in UnmarshalText. -/
theorem UnmarshalText_of_stderr (u : GoString → GoString) (r : OutputType) (text : GoString)
    (h : ToLower u text = lit "stderr") :
    OutputType.UnmarshalText u r text = (OutputStdErr, none) := by
  simp only [OutputType.UnmarshalText, h]
  rw [if_neg (by decide), if_pos trivial]

/-- The case "both" of the switch in UnmarshalText. -/
theorem UnmarshalText_of_both (u : GoString → GoString) (r : OutputType) (text : GoString)
    (h : ToLower u text = lit "both") :
    OutputType.UnmarshalText u r text = (OutputBoth, none) := by
  simp only [OutputType.UnmarshalText, h]
  rw [if_neg (by decide), if_neg (by decide), if_pos trivial]

/-- C1. Round trip: for each of the three variants v and every prior receiver
value r, UnmarshalText on the bytes returned by v.MarshalText() returns a nil
error and leaves the receiver equal to v. -/
theorem UnmarshalText_MarshalText (u : GoString → GoString) (v r : OutputType)
    (hv : isVariant v) :
    (OutputType.MarshalText v).2 = none ∧
    OutputType.UnmarshalText u r (OutputType.MarshalText v).1 = (v, none) := by
  refine ⟨rfl, ?_⟩
  rcases hv with h | h | h <;> subst h
  · exact UnmarshalText_of_file u r (lit "File")
      ((ToLower_of_isASCII u _ (by decide)).trans (by decide))
  · exact UnmarshalText_of_stderr u r (lit "StdErr")
      ((ToLower_of_isASCII u _ (by decide)).trans (by decide))
  · exact UnmarshalText_of_both u r (lit "Both")
      ((ToLower_of_isASCII u _ (by decide)).trans (by decide))

/-- Witness of C1: the variant OutputStdErr decoded over a receiver holding
OutputBoth. -/
theorem UnmarshalText_MarshalText_witness :
    isVariant OutputStdErr ∧
    (OutputType.MarshalText OutputStdErr).2 = none ∧
    OutputType.UnmarshalText id OutputBoth (OutputType.MarshalText OutputStdErr).1
      = (OutputStdErr, none) :=
  ⟨Or.inr (Or.inl rfl), UnmarshalText_MarshalText id OutputStdErr OutputBoth (Or.inr (Or.inl rfl))⟩

/-- C2. For every byte sequence whose lower-cased form (strings.ToLower of the
input) is none of "file", "stderr", "both", and for every prior receiver value r,
UnmarshalText returns a nil error and the receiver still equals r; the empty
input and the text "Unknown" are such inputs. -/
theorem UnmarshalText_unrecognized (u : GoString → GoString) (r : OutputType) :
    (∀ text : GoString, ToLower u text ≠ lit "file" → ToLower u text ≠ lit "stderr" →
      ToLower u text ≠ lit "both" → OutputType.UnmarshalText u r text = (r, none)) ∧
    OutputType.UnmarshalText u r [] = (r, none) ∧
    OutputType.UnmarshalText u r (lit "Unknown") = (r, none) := by
  have key : ∀ text : GoString, ToLower u text ≠ lit "file" →
      ToLower u text ≠ lit "stderr" → ToLower u text ≠ lit "both" →
      OutputType.UnmarshalText u r text = (r, none) := by
    intro text h1 h2 h3
    simp only [OutputType.UnmarshalText]
    rw [if_neg h1, if_neg h2, if_neg h3]
  refine ⟨key, ?_, ?_⟩
  · have h : ToLower u [] = [] := ToLower_of_isASCII u [] rfl
    exact key [] (by rw [h]; decide) (by rw [h]; decide) (by rw [h]; decide)
  · have h : ToLower u (lit "Unknown") = lit "unknown" :=
      (ToLower_of_isASCII u _ (by decide)).trans (by decide)
    exact key _ (by rw [h]; decide) (by rw [h]; decide) (by rw [h]; decide)

/-- Witness of C2: the text "stdout" over a receiver holding OutputBoth. -/
theorem UnmarshalText_unrecognized_witness :
    ToLower id (lit "stdout") ≠ lit "file" ∧ ToLower id (lit "stdout") ≠ lit "stderr" ∧
    ToLower id (lit "stdout") ≠ lit "both" ∧
    OutputType.UnmarshalText id OutputBoth (lit "stdout") = (OutputBoth, none) :=
  ⟨by decide, by decide, by decide,
    (UnmarshalText_unrecognized id OutputBoth).1 (lit "stdout")
      (by decide) (by decide) (by decide)⟩

/-- C3. Case-insensitive decode: for every input that is "file", "stderr" or
"both" with each letter independently in upper or lower case, and for every prior
receiver value r, UnmarshalText returns a nil error and sets the receiver to
OutputFile, OutputStdErr or OutputBoth respectively, whatever r was. -/
theorem UnmarshalText_caseInsensitive (u : GoString → GoString) (r : OutputType)
    (text : GoString) :
    (caseVariantOf (lit "file") text →
      OutputType.UnmarshalText u r text = (OutputFile, none)) ∧
    (caseVariantOf (lit "stderr") text →
      OutputType.UnmarshalText u r text = (OutputStdErr, none)) ∧
    (caseVariantOf (lit "both") text →
      OutputType.UnmarshalText u r text = (OutputBoth, none)) :=
  ⟨fun h => UnmarshalText_of_file u r text
      (ToLower_caseVariantOf u _ text isLowerWord_file h),
   fun h => UnmarshalText_of_stderr u r text
      (ToLower_caseVariantOf u _ text isLowerWord_stderr h),
   fun h => UnmarshalText_of_both u r text
      (ToLower_caseVariantOf u _ text isLowerWord_both h)⟩

/-- Witness of C3: the inputs "FILE", "StdErr" and "bOtH". -/
theorem UnmarshalText_caseInsensitive_witness :
    (caseVariantOf (lit "file") (lit "FILE") ∧
      OutputType.UnmarshalText id OutputBoth (lit "FILE") = (OutputFile, none)) ∧
    (caseVariantOf (lit "stderr") (lit "StdErr") ∧
      OutputType.UnmarshalText id OutputFile (lit "StdErr") = (OutputStdErr, none)) ∧
    (caseVariantOf (lit "both") (lit "bOtH") ∧
      OutputType.UnmarshalText id OutputFile (lit "bOtH") = (OutputBoth, none)) :=
  have h1 : caseVariantOf (lit "file") (lit "FILE") := by
    unfold caseVariantOf; decide
  have h2 : caseVariantOf (lit "stderr") (lit "StdErr") := by
    unfold caseVariantOf; decide
  have h3 : caseVariantOf (lit "both") (lit "bOtH") := by
    unfold caseVariantOf; decide
  ⟨⟨h1, (UnmarshalText_caseInsensitive id OutputBoth (lit "FILE")).1 h1⟩,
   ⟨h2, (UnmarshalText_caseInsensitive id OutputFile (lit "StdErr")).2.1 h2⟩,
   ⟨h3, (UnmarshalText_caseInsensitive id OutputFile (lit "bOtH")).2.2 h3⟩⟩

/-- C4. String is total on every value of OutputType: it returns "File" for
OutputFile (0), "StdErr" for OutputStdErr (1), "Both" for OutputBoth (2), and
String(v) = "Unknown" if and only if v is none of these three values (v > 2). -/
theorem String_total (v : OutputType) :
    OutputFile = 0 ∧ OutputStdErr = 1 ∧ OutputBoth = 2 ∧
    OutputType.String OutputFile = lit "File" ∧
    OutputType.String OutputStdErr = lit "StdErr" ∧
    OutputType.String OutputBoth = lit "Both" ∧
    (OutputType.String v = lit "Unknown" ↔ ¬ isVariant v) ∧
    (¬ isVariant v ↔ 2 < v) := by
  refine ⟨rfl, rfl, rfl, rfl, rfl, rfl, ?_, ?_⟩
  · unfold OutputType.String isVariant
    by_cases h0 : v = OutputFile
    · simp only [h0, if_true, true_or, not_true_eq_false, iff_false]; decide
    · by_cases h1 : v = OutputStdErr
      · rw [if_neg h0, if_pos h1]
        simp only [h1, true_or, or_true, not_true_eq_false, iff_false]; decide
      · by_cases h2 : v = OutputBoth
        · rw [if_neg h0, if_neg h1, if_pos h2]
          simp only [h2, or_true, not_true_eq_false, iff_false]; decide
        · rw [if_neg h0, if_neg h1, if_neg h2]
          simp [h0, h1, h2]
  · have key : ∀ n : Nat, (¬ (n = 0 ∨ n = 1 ∨ n = 2) ↔ 2 < n) := by
      intro n; omega
    exact key v

/-- C5. For every OutputType value v (in range or not), MarshalText returns a nil
error and a byte sequence equal to the bytes of v.String(). -/
theorem MarshalText_eq_String (v : OutputType) :
    (OutputType.MarshalText v).2 = none ∧
    (OutputType.MarshalText v).1 = OutputType.String v :=
  ⟨rfl, rfl⟩

/-! ## Lemmas on the integer conversions and the library functions -/

/-- The conversion int64(x) keeps the value of a Go int. -/
theorem int64_of_isInt (x : Int) (h : isInt x) : int64 x = x := by
  unfold isInt at h
  unfold int64
  omega

/-- An int32 value is in the range of int64. -/
theorem isInt_of_isInt32 (x : Int) (h : isInt32 x) : isInt x := by
  unfold isInt32 at h
  unfold isInt
  omega

/-- What formatBits writes goes in front of what was already written. -/
theorem formatBits_acc (base fuel : Nat) :
    ∀ (u : Nat) (acc : GoString),
      formatBits base fuel u acc = formatBits base fuel u [] ++ acc := by
  induction fuel with
  | zero => intro u acc; rfl
  | succ n ih =>
    intro u acc
    simp only [formatBits]
    split
    · rfl
    · rw [ih (u / base) (digit (u % base) :: acc), ih (u / base) [digit (u % base)]]
      simp

/-- The value of a digit string extended by one byte. -/
theorem decimalValue_append_singleton (s : GoString) (c : Nat) :
    decimalValue (s ++ [c]) = 10 * decimalValue s + (c - 48) := by
  simp [decimalValue, List.foldl_append]

/-- The decimal digits formatBits writes denote the number formatted. -/
theorem decimalValue_formatBits (fuel : Nat) :
    ∀ u : Nat, u < fuel → decimalValue (formatBits 10 fuel u []) = u := by
  induction fuel with
  | zero => intro u h; omega
  | succ n ih =>
    intro u h
    simp only [formatBits]
    split
    · rename_i hu
      have : digit u = 48 + u := by simp [digit, hu]
      simp [decimalValue, this]
    · rename_i hu
      rw [formatBits_acc, decimalValue_append_singleton, ih (u / 10) (by omega)]
      have : digit (u % 10) = 48 + u % 10 := by
        have : u % 10 < 10 := Nat.mod_lt _ (by decide)
        simp [digit, this]
      rw [this]
      omega

/-- FormatInt in base 10 writes a '-' exactly for a negative number, and the
digits it writes denote the magnitude of the number. -/
theorem FormatInt_sound (i : Int) :
    (0 ≤ i → decimalValue (FormatInt i 10) = i.natAbs) ∧
    (i < 0 → ∃ s, FormatInt i 10 = 45 :: s ∧ decimalValue s = i.natAbs) := by
  constructor
  · intro h
    have : ¬ i < 0 := by omega
    simp only [FormatInt, if_neg this]
    exact decimalValue_formatBits _ _ (Nat.lt_succ_self _)
  · intro h
    refine ⟨formatBits 10 (i.natAbs + 1) i.natAbs [], ?_, ?_⟩
    · simp only [FormatInt, if_pos h]
    · exact decimalValue_formatBits _ _ (Nat.lt_succ_self _)

/-- The builder loop of Join, started on a string with something in front. -/
theorem foldl_join_append (sep : GoString) (rest : List GoString) :
    ∀ a b : GoString,
      rest.foldl (fun x s => x ++ sep ++ s) (a ++ b) =
        a ++ rest.foldl (fun x s => x ++ sep ++ s) b := by
  induction rest with
  | nil => intro a b; rfl
  | cons s t ih =>
    intro a b
    simp only [List.foldl_cons]
    rw [List.append_assoc a b sep, List.append_assoc a (b ++ sep) s]
    exact ih a (b ++ sep ++ s)

/-- Join on two or more elements: the first, the separator, the rest joined. -/
theorem Join_cons_cons (e e2 : GoString) (rest : List GoString) (sep : GoString) :
    Join (e :: e2 :: rest) sep = e ++ sep ++ Join (e2 :: rest) sep := by
  simp only [Join, List.foldl_cons]
  rw [List.append_assoc e sep e2, foldl_join_append, foldl_join_append, List.append_assoc]

/-- The spec's serialisation is the comma Join of the rendered entries. -/
theorem Join_patterns (l : List VerbosityModule) :
    Join (l.map (fun e => e.Module ++ lit "=" ++ FormatInt e.Verbosity 10)) (lit ",")
      = specModuleString l := by
  induction l with
  | nil => rfl
  | cons e t ih =>
    cases t with
    | nil => rfl
    | cons e2 rest =>
      simp only [List.map_cons] at ih ⊢
      rw [Join_cons_cons, ih]
      simp [specModuleString]

/-! ## The fields Apply writes -/

/-- The value Apply writes to logging.toStderr. -/
theorem Apply_toStderr (g : Globals) (c : Config) :
    (Apply g c).logging.toStderr = decide (c.Output = OutputStdErr) := by
  by_cases h1 : c.StdErrThreshold = 0 <;> by_cases h2 : c.Verbosity = 0 <;>
    by_cases h3 : c.OutputDir = [] <;> simp [Apply, h1, h2, h3]

/-- The value Apply writes to logging.alsoToStderr. -/
theorem Apply_alsoToStderr (g : Globals) (c : Config) :
    (Apply g c).logging.alsoToStderr = decide (c.Output = OutputBoth) := by
  by_cases h1 : c.StdErrThreshold = 0 <;> by_cases h2 : c.Verbosity = 0 <;>
    by_cases h3 : c.OutputDir = [] <;> simp [Apply, h1, h2, h3]

/-- The string Apply passes to logging.stderrThreshold.Set. -/
theorem Apply_stderrThreshold (g : Globals) (c : Config) :
    (Apply g c).logging.stderrThreshold =
      FormatInt (int64 (if c.StdErrThreshold = 0 then g.DefaultConfig.StdErrThreshold
        else c.StdErrThreshold)) 10 := by
  by_cases h1 : c.StdErrThreshold = 0 <;> by_cases h2 : c.Verbosity = 0 <;>
    by_cases h3 : c.OutputDir = [] <;> simp [Apply, h1, h2, h3]

/-- The string Apply passes to logging.verbosity.Set. -/
theorem Apply_verbosity (g : Globals) (c : Config) :
    (Apply g c).logging.verbosity =
      FormatInt (int64 (if c.Verbosity = 0 then g.DefaultConfig.Verbosity
        else c.Verbosity)) 10 := by
  by_cases h1 : c.StdErrThreshold = 0 <;> by_cases h2 : c.Verbosity = 0 <;>
    by_cases h3 : c.OutputDir = [] <;> simp [Apply, h1, h2, h3]

/-- The string Apply passes to logging.vmodule.Set. -/
theorem Apply_vmodule (g : Globals) (c : Config) :
    (Apply g c).logging.vmodule = Join c.VerbosityModulePatterns (lit ",") := by
  by_cases h1 : c.StdErrThreshold = 0 <;> by_cases h2 : c.Verbosity = 0 <;>
    by_cases h3 : c.OutputDir = [] <;>
    simp [Apply, h1, h2, h3]

/-- The list Apply assigns to logDirs. -/
theorem Apply_logDirs (g : Globals) (c : Config) :
    (Apply g c).logDirs = [if c.OutputDir = [] then g.DefaultConfig.OutputDir
      else c.OutputDir] := by
  by_cases h1 : c.StdErrThreshold = 0 <;> by_cases h2 : c.Verbosity = 0 <;>
    by_cases h3 : c.OutputDir = [] <;> simp [Apply, h1, h2, h3]

/-! ## Apply -/

/-- C6. Routing flags: for every Config c and every prior backend state, after
Apply(c) logging.toStderr is true if and only if c.Output == OutputStdErr and
logging.alsoToStderr is true if and only if c.Output == OutputBoth; Output = File
gives both false, and Output = Both gives alsoToStderr true and toStderr false. -/
theorem Apply_routing_flags (g : Globals) (c : Config) :
    ((Apply g c).logging.toStderr = true ↔ c.Output = OutputStdErr) ∧
    ((Apply g c).logging.alsoToStderr = true ↔ c.Output = OutputBoth) ∧
    (c.Output = OutputFile →
      (Apply g c).logging.toStderr = false ∧ (Apply g c).logging.alsoToStderr = false) ∧
    (c.Output = OutputBoth →
      (Apply g c).logging.alsoToStderr = true ∧ (Apply g c).logging.toStderr = false) := by
  rw [Apply_toStderr, Apply_alsoToStderr]
  refine ⟨by simp, by simp, ?_, ?_⟩
  · intro h
    rw [h]
    exact ⟨by decide, by decide⟩
  · intro h
    rw [h]
    exact ⟨by decide, by decide⟩

/-- Witness of C6: over a backend with both flags set, Output = File clears both
and Output = Both sets alsoToStderr only. -/
theorem Apply_routing_flags_witness :
    (exampleSet.Output = OutputFile ∧
      (Apply exampleGlobals exampleSet).logging.toStderr = false ∧
      (Apply exampleGlobals exampleSet).logging.alsoToStderr = false) ∧
    (exampleUnset.Output = OutputBoth ∧
      (Apply exampleGlobals exampleUnset).logging.alsoToStderr = true ∧
      (Apply exampleGlobals exampleUnset).logging.toStderr = false) :=
  ⟨⟨rfl, (Apply_routing_flags exampleGlobals exampleSet).2.2.1 rfl⟩,
   ⟨rfl, (Apply_routing_flags exampleGlobals exampleUnset).2.2.2 rfl⟩⟩

/-- C7. Verbosity normalization: for every Config c (its Verbosity a Go int), the
string Apply(c) passes to logging.verbosity.Set is the base-10 rendering of
DefaultConfig.Verbosity, as it is at the time of the call, when c.Verbosity == 0,
and the base-10 rendering of c.Verbosity otherwise (negative values included). -/
theorem Apply_verbosity_normalized (g : Globals) (c : Config)
    (hc : isInt c.Verbosity) (hd : isInt g.DefaultConfig.Verbosity) :
    (c.Verbosity = 0 →
      (Apply g c).logging.verbosity = FormatInt g.DefaultConfig.Verbosity 10) ∧
    (c.Verbosity ≠ 0 → (Apply g c).logging.verbosity = FormatInt c.Verbosity 10) := by
  rw [Apply_verbosity]
  constructor
  · intro h
    rw [if_pos h, int64_of_isInt _ hd]
  · intro h
    rw [if_neg h, int64_of_isInt _ hc]

/-- Witness of C7: with DefaultConfig.Verbosity changed to 42, an unset Verbosity
is passed on as "42" and the Verbosity -12 as "-12". -/
theorem Apply_verbosity_normalized_witness :
    (isInt exampleUnset.Verbosity ∧ isInt exampleGlobals.DefaultConfig.Verbosity ∧
      exampleUnset.Verbosity = 0 ∧
      (Apply exampleGlobals exampleUnset).logging.verbosity = lit "42") ∧
    (isInt exampleSet.Verbosity ∧ exampleSet.Verbosity ≠ 0 ∧
      (Apply exampleGlobals exampleSet).logging.verbosity = lit "-12") :=
  have hu : isInt exampleUnset.Verbosity := by unfold isInt; decide
  have hs : isInt exampleSet.Verbosity := by unfold isInt; decide
  have hd : isInt exampleGlobals.DefaultConfig.Verbosity := by unfold isInt; decide
  ⟨⟨hu, hd, rfl,
     ((Apply_verbosity_normalized exampleGlobals exampleUnset hu hd).1 rfl).trans (by decide)⟩,
   ⟨hs, by decide,
     ((Apply_verbosity_normalized exampleGlobals exampleSet hs hd).2 (by decide)).trans
       (by decide)⟩⟩

/-- C8. Threshold normalization: for every Config c (its StdErrThreshold an
int32), the string Apply(c) passes to logging.stderrThreshold.Set is the base-10
rendering of DefaultConfig.StdErrThreshold when c.StdErrThreshold == 0, and the
base-10 rendering of c.StdErrThreshold otherwise; the conversion to int64 does
not change the value. -/
theorem Apply_stderrThreshold_normalized (g : Globals) (c : Config)
    (hc : isInt32 c.StdErrThreshold) (hd : isInt32 g.DefaultConfig.StdErrThreshold) :
    (c.StdErrThreshold = 0 →
      (Apply g c).logging.stderrThreshold = FormatInt g.DefaultConfig.StdErrThreshold 10) ∧
    (c.StdErrThreshold ≠ 0 →
      (Apply g c).logging.stderrThreshold = FormatInt c.StdErrThreshold 10) ∧
    int64 c.StdErrThreshold = c.StdErrThreshold := by
  rw [Apply_stderrThreshold]
  refine ⟨?_, ?_, int64_of_isInt _ (isInt_of_isInt32 _ hc)⟩
  · intro h
    rw [if_pos h, int64_of_isInt _ (isInt_of_isInt32 _ hd)]
  · intro h
    rw [if_neg h, int64_of_isInt _ (isInt_of_isInt32 _ hc)]

/-- Witness of C8: with DefaultConfig.StdErrThreshold = 3, an unset threshold is
passed on as "3" and the threshold 2 as "2". -/
theorem Apply_stderrThreshold_normalized_witness :
    (isInt32 exampleUnset.StdErrThreshold ∧
      isInt32 exampleGlobals.DefaultConfig.StdErrThreshold ∧
      exampleUnset.StdErrThreshold = 0 ∧
      (Apply exampleGlobals exampleUnset).logging.stderrThreshold = lit "3") ∧
    (isInt32 exampleSet.StdErrThreshold ∧ exampleSet.StdErrThreshold ≠ 0 ∧
      (Apply exampleGlobals exampleSet).logging.stderrThreshold = lit "2") :=
  have hu : isInt32 exampleUnset.StdErrThreshold := by unfold isInt32; decide
  have hs : isInt32 exampleSet.StdErrThreshold := by unfold isInt32; decide
  have hd : isInt32 exampleGlobals.DefaultConfig.StdErrThreshold := by
    unfold isInt32; decide
  ⟨⟨hu, hd, rfl,
     ((Apply_stderrThreshold_normalized exampleGlobals exampleUnset hu hd).1 rfl).trans
       (by decide)⟩,
   ⟨hs, by decide,
     ((Apply_stderrThreshold_normalized exampleGlobals exampleSet hs hd).2.1
       (by decide)).trans (by decide)⟩⟩

/-- C9. Output directory: for every Config c and every prior content of logDirs,
after Apply(c) the list logDirs has exactly one element, equal to c.OutputDir when
c.OutputDir is non-empty and to DefaultConfig.OutputDir when c.OutputDir is the
empty string; prior entries are discarded. -/
theorem Apply_logDirs_single (g : Globals) (c : Config) :
    (Apply g c).logDirs.length = 1 ∧
    (c.OutputDir ≠ [] → (Apply g c).logDirs = [c.OutputDir]) ∧
    (c.OutputDir = [] → (Apply g c).logDirs = [g.DefaultConfig.OutputDir]) := by
  rw [Apply_logDirs]
  refine ⟨rfl, ?_, ?_⟩
  · intro h
    rw [if_neg h]
  · intro h
    rw [if_pos h]

/-- Witness of C9: over the directory list ["/a", "/b"], OutputDir =
"/var/log/app" gives exactly ["/var/log/app"] and the empty OutputDir gives
exactly [DefaultConfig.OutputDir] = ["/tmp"]. -/
theorem Apply_logDirs_single_witness :
    exampleGlobals.logDirs = [lit "/a", lit "/b"] ∧
    (exampleSet.OutputDir = lit "/var/log/app" ∧
      (Apply exampleGlobals exampleSet).logDirs = [lit "/var/log/app"]) ∧
    (exampleUnset.OutputDir = [] ∧
      (Apply exampleGlobals exampleUnset).logDirs = [lit "/tmp"]) :=
  ⟨rfl,
   ⟨rfl, (Apply_logDirs_single exampleGlobals exampleSet).2.1 (by decide)⟩,
   ⟨rfl, (Apply_logDirs_single exampleGlobals exampleUnset).2.2 rfl⟩⟩

/-- C10. Per-module verbosity serialization, which the code misses: Apply passes
to logging.vmodule.Set the comma join of c.VerbosityModulePatterns and never
reads c.VerbosityModules. For VerbosityModules = [(net, 2), (auth, 5)] the setter
receives the empty string, where the serialisation the spec describes is
"net=2,auth=5"; and replacing VerbosityModules by any other list leaves the
string passed as it was. -/
theorem Apply_vmodule_ignores_VerbosityModules (g : Globals) (c : Config)
    (ms : List VerbosityModule) :
    (Apply g { Output := OutputFile, OutputDir := [], Verbosity := 0,
               VerbosityModules := [⟨lit "net", 2⟩, ⟨lit "auth", 5⟩],
               StdErrThreshold := 0 }).logging.vmodule = [] ∧
    specModuleString [⟨lit "net", 2⟩, ⟨lit "auth", 5⟩] = lit "net=2,auth=5" ∧
    (Apply g { c with VerbosityModules := ms }).logging.vmodule =
      (Apply g c).logging.vmodule := by
  refine ⟨?_, by decide, ?_⟩
  · rw [Apply_vmodule]
    rfl
  · rw [Apply_vmodule, Apply_vmodule]

/-! ## Apply in closed form -/

/-- Apply leaves DefaultConfig as it is and overwrites logging and logDirs with
values computed from the Config and DefaultConfig alone. -/
theorem Apply_eq (g : Globals) (c : Config) :
    Apply g c =
      { DefaultConfig := g.DefaultConfig,
        logging :=
          { toStderr := decide (c.Output = OutputStdErr),
            alsoToStderr := decide (c.Output = OutputBoth),
            stderrThreshold :=
              FormatInt (int64 (if c.StdErrThreshold = 0 then g.DefaultConfig.StdErrThreshold
                else c.StdErrThreshold)) 10,
            verbosity :=
              FormatInt (int64 (if c.Verbosity = 0 then g.DefaultConfig.Verbosity
                else c.Verbosity)) 10,
            vmodule := Join c.VerbosityModulePatterns (lit ",") },
        logDirs := [if c.OutputDir = [] then g.DefaultConfig.OutputDir else c.OutputDir] } := by
  by_cases h1 : c.StdErrThreshold = 0 <;> by_cases h2 : c.Verbosity = 0 <;>
    by_cases h3 : c.OutputDir = [] <;>
    simp [Apply, h1, h2, h3]

/-- Apply does not assign to DefaultConfig. -/
theorem Apply_DefaultConfig (g : Globals) (c : Config) :
    (Apply g c).DefaultConfig = g.DefaultConfig := by
  rw [Apply_eq]

/-- The package-level variables after the call are those Apply computes. -/
theorem callApply_globals (g : Globals) (x : Config) :
    (callApply g x).globals = Apply g x := by
  by_cases h1 : x.StdErrThreshold = 0 <;> by_cases h2 : x.Verbosity = 0 <;>
    by_cases h3 : x.OutputDir = [] <;>
    simp [callApply, ApplyBody, Apply, h1, h2, h3]

/-- No statement of the body assigns to the caller's value. -/
theorem callApply_caller (g : Globals) (x : Config) : (callApply g x).caller = x := by
  by_cases h1 : x.StdErrThreshold = 0 <;> by_cases h2 : x.Verbosity = 0 <;>
    by_cases h3 : x.OutputDir = [] <;>
    simp [callApply, ApplyBody, h1, h2, h3]

/-- The parameter at the end of the body: the normalized copy. -/
theorem callApply_c (g : Globals) (x : Config) :
    (callApply g x).c =
      { x with
        StdErrThreshold := if x.StdErrThreshold = 0 then g.DefaultConfig.StdErrThreshold
          else x.StdErrThreshold,
        Verbosity := if x.Verbosity = 0 then g.DefaultConfig.Verbosity else x.Verbosity,
        OutputDir := if x.OutputDir = [] then g.DefaultConfig.OutputDir else x.OutputDir } := by
  by_cases h1 : x.StdErrThreshold = 0 <;> by_cases h2 : x.Verbosity = 0 <;>
    by_cases h3 : x.OutputDir = [] <;>
    simp [callApply, ApplyBody, h1, h2, h3]

/-- The variables after init, started on a zero DefaultConfig. -/
theorem init_eq (T : GoString) (l : loggingT) (dirs : List GoString) :
    init T (startGlobals l dirs) =
      { DefaultConfig := { Output := OutputStdErr, OutputDir := T, Verbosity := 9000,
                           VerbosityModules := [], StdErrThreshold := 3 },
        logging := { toStderr := true, alsoToStderr := false, stderrThreshold := lit "3",
                     verbosity := lit "9000", vmodule := [] },
        logDirs := [T] } := by
  unfold init
  rw [Apply_eq]
  simp only [startGlobals, zeroConfig]
  have h3 : FormatInt (int64 3) 10 = lit "3" := by decide
  have h9 : FormatInt (int64 9000) 10 = lit "9000" := by decide
  simp [h3, h9, Join, OutputStdErr, OutputBoth]

/-- FormatInt writes "0" for the number 0 only. -/
theorem FormatInt_eq_zero (i : Int) (h : FormatInt i 10 = lit "0") : i = 0 := by
  have h0 : lit "0" = [48] := by decide
  rw [h0] at h
  by_cases hneg : i < 0
  · obtain ⟨s, hs, _⟩ := (FormatInt_sound i).2 hneg
    rw [hs] at h
    simp at h
  · have hv := (FormatInt_sound i).1 (by omega)
    rw [h] at hv
    simp [decimalValue] at hv
    omega

/-! ## Defaults, initialization and frame properties of Apply -/

/-- C11. No defaulting of VerbosityModules, and where the code departs from it:
the string Apply(c) passes to logging.vmodule.Set is the same under every
DefaultConfig, and it is empty whenever c.VerbosityModulePatterns is empty; but a
Config with an empty VerbosityModules list whose VerbosityModulePatterns is
["x=1"] makes the setter receive "x=1", not the empty string. -/
theorem Apply_vmodule_empty_VerbosityModules (g g2 : Globals) (c : Config) :
    (Apply g { Output := OutputFile, OutputDir := [], Verbosity := 0,
               VerbosityModules := [], VerbosityModulePatterns := [lit "x=1"],
               StdErrThreshold := 0 }).logging.vmodule = lit "x=1" ∧
    lit "x=1" ≠ [] ∧
    (Apply g2 c).logging.vmodule = (Apply g c).logging.vmodule ∧
    (Apply g { c with VerbosityModulePatterns := [] }).logging.vmodule = [] := by
  refine ⟨?_, by decide, ?_, ?_⟩
  · rw [Apply_vmodule]
    rfl
  · rw [Apply_vmodule, Apply_vmodule]
  · rw [Apply_vmodule]
    rfl

/-- C12. End-to-end defaults: in the state right after package initialization,
applying the Config with Output = OutputBoth and everything else unset gives the
same threshold string, verbosity string, module string and directory list as
applying DefaultConfig, and the routing flags toStderr = false, alsoToStderr =
true where applying DefaultConfig gives toStderr = true, alsoToStderr = false. -/
theorem Apply_unset_after_init (T : GoString) (l : loggingT) (dirs : List GoString) :
    (Apply (init T (startGlobals l dirs))
        { Output := OutputBoth, OutputDir := [], Verbosity := 0, VerbosityModules := [],
          StdErrThreshold := 0 }).logging.stderrThreshold =
      (Apply (init T (startGlobals l dirs))
        (init T (startGlobals l dirs)).DefaultConfig).logging.stderrThreshold ∧
    (Apply (init T (startGlobals l dirs))
        { Output := OutputBoth, OutputDir := [], Verbosity := 0, VerbosityModules := [],
          StdErrThreshold := 0 }).logging.verbosity =
      (Apply (init T (startGlobals l dirs))
        (init T (startGlobals l dirs)).DefaultConfig).logging.verbosity ∧
    (Apply (init T (startGlobals l dirs))
        { Output := OutputBoth, OutputDir := [], Verbosity := 0, VerbosityModules := [],
          StdErrThreshold := 0 }).logging.vmodule =
      (Apply (init T (startGlobals l dirs))
        (init T (startGlobals l dirs)).DefaultConfig).logging.vmodule ∧
    (Apply (init T (startGlobals l dirs))
        { Output := OutputBoth, OutputDir := [], Verbosity := 0, VerbosityModules := [],
          StdErrThreshold := 0 }).logDirs =
      (Apply (init T (startGlobals l dirs))
        (init T (startGlobals l dirs)).DefaultConfig).logDirs ∧
    (Apply (init T (startGlobals l dirs))
        { Output := OutputBoth, OutputDir := [], Verbosity := 0, VerbosityModules := [],
          StdErrThreshold := 0 }).logging.toStderr = false ∧
    (Apply (init T (startGlobals l dirs))
        { Output := OutputBoth, OutputDir := [], Verbosity := 0, VerbosityModules := [],
          StdErrThreshold := 0 }).logging.alsoToStderr = true ∧
    (Apply (init T (startGlobals l dirs))
        (init T (startGlobals l dirs)).DefaultConfig).logging.toStderr = true ∧
    (Apply (init T (startGlobals l dirs))
        (init T (startGlobals l dirs)).DefaultConfig).logging.alsoToStderr = false ∧
    Apply (init T (startGlobals l dirs)) (init T (startGlobals l dirs)).DefaultConfig =
      init T (startGlobals l dirs) := by
  rw [init_eq, Apply_eq, Apply_eq]
  have h3 : FormatInt (int64 3) 10 = lit "3" := by decide
  have h9 : FormatInt (int64 9000) 10 = lit "9000" := by decide
  by_cases hT : T = [] <;>
    simp [h3, h9, hT, Join, OutputStdErr, OutputBoth]

/-- C13. Initial state: after package initialization DefaultConfig has Verbosity
= 9000, StdErrThreshold = 3, Output = OutputStdErr and OutputDir = T, the string
os.TempDir() returned, and the backend has been configured from it: toStderr =
true, alsoToStderr = false, the threshold setter received "3", the verbosity
setter "9000", the module setter the empty string, and logDirs is exactly [T]. -/
theorem init_state (T : GoString) (l : loggingT) (dirs : List GoString) :
    (init T (startGlobals l dirs)).DefaultConfig.Verbosity = 9000 ∧
    (init T (startGlobals l dirs)).DefaultConfig.StdErrThreshold = 3 ∧
    (init T (startGlobals l dirs)).DefaultConfig.Output = OutputStdErr ∧
    (init T (startGlobals l dirs)).DefaultConfig.OutputDir = T ∧
    (init T (startGlobals l dirs)).logging.toStderr = true ∧
    (init T (startGlobals l dirs)).logging.alsoToStderr = false ∧
    (init T (startGlobals l dirs)).logging.stderrThreshold = lit "3" ∧
    (init T (startGlobals l dirs)).logging.verbosity = lit "9000" ∧
    (init T (startGlobals l dirs)).logging.vmodule = [] ∧
    (init T (startGlobals l dirs)).logDirs = [T] := by
  rw [init_eq]
  exact ⟨rfl, rfl, rfl, rfl, rfl, rfl, rfl, rfl, rfl, rfl⟩

/-- C14. Apply normalizes a local copy only: for every Config x, after the call
Apply(x) the caller's value is unchanged in every field (a zero Verbosity, zero
StdErrThreshold or empty OutputDir stays zero or empty, while the parameter holds
the substituted defaults), and DefaultConfig is unchanged in every field. -/
theorem callApply_frame (g : Globals) (x : Config) :
    (callApply g x).caller = x ∧
    (callApply g x).globals.DefaultConfig = g.DefaultConfig ∧
    (Apply g x).DefaultConfig = g.DefaultConfig ∧
    (x.Verbosity = 0 → (callApply g x).caller.Verbosity = 0 ∧
      (callApply g x).c.Verbosity = g.DefaultConfig.Verbosity) ∧
    (x.StdErrThreshold = 0 → (callApply g x).caller.StdErrThreshold = 0 ∧
      (callApply g x).c.StdErrThreshold = g.DefaultConfig.StdErrThreshold) ∧
    (x.OutputDir = [] → (callApply g x).caller.OutputDir = [] ∧
      (callApply g x).c.OutputDir = g.DefaultConfig.OutputDir) := by
  rw [callApply_caller, callApply_globals, callApply_c, Apply_DefaultConfig]
  refine ⟨rfl, rfl, rfl, ?_, ?_, ?_⟩
  · intro h
    exact ⟨h, if_pos h⟩
  · intro h
    exact ⟨h, if_pos h⟩
  · intro h
    exact ⟨h, if_pos h⟩

/-- Witness of C14: the unset Config keeps its zero Verbosity in the caller while
the parameter of Apply receives DefaultConfig.Verbosity = 42. -/
theorem callApply_frame_witness :
    exampleUnset.Verbosity = 0 ∧
    (callApply exampleGlobals exampleUnset).caller.Verbosity = 0 ∧
    (callApply exampleGlobals exampleUnset).c.Verbosity = 42 :=
  ⟨rfl, (callApply_frame exampleGlobals exampleUnset).2.2.2.1 rfl⟩

/-- C15. Zero is not requestable: when DefaultConfig.Verbosity is non-zero no
Config makes Apply pass "0" to the verbosity setter; when
DefaultConfig.StdErrThreshold is non-zero no Config makes the threshold setter
receive "0"; and when DefaultConfig.OutputDir is non-empty no Config makes logDirs
contain the empty string. The integer fields are in the range of their Go type. -/
theorem Apply_zero_not_requestable (g : Globals)
    (hv : isInt g.DefaultConfig.Verbosity) (ht : isInt32 g.DefaultConfig.StdErrThreshold) :
    (g.DefaultConfig.Verbosity ≠ 0 →
      ∀ c : Config, isInt c.Verbosity → (Apply g c).logging.verbosity ≠ lit "0") ∧
    (g.DefaultConfig.StdErrThreshold ≠ 0 →
      ∀ c : Config, isInt32 c.StdErrThreshold →
        (Apply g c).logging.stderrThreshold ≠ lit "0") ∧
    (g.DefaultConfig.OutputDir ≠ [] → ∀ c : Config, [] ∉ (Apply g c).logDirs) := by
  refine ⟨?_, ?_, ?_⟩
  · intro hd c hc hz
    rw [Apply_verbosity] at hz
    by_cases h : c.Verbosity = 0
    · rw [if_pos h, int64_of_isInt _ hv] at hz
      exact hd (FormatInt_eq_zero _ hz)
    · rw [if_neg h, int64_of_isInt _ hc] at hz
      exact h (FormatInt_eq_zero _ hz)
  · intro hd c hc hz
    rw [Apply_stderrThreshold] at hz
    by_cases h : c.StdErrThreshold = 0
    · rw [if_pos h, int64_of_isInt _ (isInt_of_isInt32 _ ht)] at hz
      exact hd (FormatInt_eq_zero _ hz)
    · rw [if_neg h, int64_of_isInt _ (isInt_of_isInt32 _ hc)] at hz
      exact h (FormatInt_eq_zero _ hz)
  · intro hd c hmem
    rw [Apply_logDirs, List.mem_singleton] at hmem
    by_cases h : c.OutputDir = []
    · rw [if_pos h] at hmem
      exact hd hmem.symm
    · rw [if_neg h] at hmem
      exact h hmem.symm

/-- Witness of C15: with the defaults 42, 3 and "/tmp", the Config asking for
Verbosity 0, StdErrThreshold 0 and an empty OutputDir gets none of them. -/
theorem Apply_zero_not_requestable_witness :
    isInt exampleGlobals.DefaultConfig.Verbosity ∧
    isInt32 exampleGlobals.DefaultConfig.StdErrThreshold ∧
    (Apply exampleGlobals exampleUnset).logging.verbosity ≠ lit "0" ∧
    (Apply exampleGlobals exampleUnset).logging.stderrThreshold ≠ lit "0" ∧
    [] ∉ (Apply exampleGlobals exampleUnset).logDirs :=
  have hv : isInt exampleGlobals.DefaultConfig.Verbosity := by unfold isInt; decide
  have ht : isInt32 exampleGlobals.DefaultConfig.StdErrThreshold := by
    unfold isInt32; decide
  ⟨hv, ht,
   (Apply_zero_not_requestable exampleGlobals hv ht).1 (by decide) exampleUnset
     (by unfold isInt; decide),
   (Apply_zero_not_requestable exampleGlobals hv ht).2.1 (by decide) exampleUnset
     (by unfold isInt32; decide),
   (Apply_zero_not_requestable exampleGlobals hv ht).2.2 (by decide) exampleUnset⟩

/-- C16. Serialization tags of Config under Go's struct-tag lookup: for the key
"toml" every tag of config.go yields its name (output, output_dir, verbosity,
verbosity_modules, module, verbosity, and "-" for StdErrThreshold); for the key
"json" every one of them yields nothing, because the two pairs of each tag are
separated by a comma and the second pair is read under the name ",json". With a
space as separator the key "json" yields the name. -/
theorem StructTag_Lookup_Config_tags :
    (StructTag.Lookup tag_Output (lit "toml") = some (lit "output") ∧
     StructTag.Lookup tag_OutputDir (lit "toml") = some (lit "output_dir") ∧
     StructTag.Lookup tag_Verbosity (lit "toml") = some (lit "verbosity") ∧
     StructTag.Lookup tag_VerbosityModules (lit "toml") = some (lit "verbosity_modules") ∧
     StructTag.Lookup tag_Module (lit "toml") = some (lit "module") ∧
     StructTag.Lookup tag_ModuleVerbosity (lit "toml") = some (lit "verbosity") ∧
     StructTag.Lookup tag_StdErrThreshold (lit "toml") = some (lit "-")) ∧
    (StructTag.Lookup tag_Output (lit "json") = none ∧
     StructTag.Lookup tag_OutputDir (lit "json") = none ∧
     StructTag.Lookup tag_Verbosity (lit "json") = none ∧
     StructTag.Lookup tag_VerbosityModules (lit "json") = none ∧
     StructTag.Lookup tag_Module (lit "json") = none ∧
     StructTag.Lookup tag_ModuleVerbosity (lit "json") = none ∧
     StructTag.Lookup tag_StdErrThreshold (lit "json") = none) ∧
    StructTag.Lookup tag_Output (lit ",json") = some (lit "output") ∧
    StructTag.Lookup tag_Output_spaced (lit "json") = some (lit "output") := by
  refine ⟨⟨?_, ?_, ?_, ?_, ?_, ?_, ?_⟩, ⟨?_, ?_, ?_, ?_, ?_, ?_, ?_⟩, ?_, ?_⟩ <;> decide

/-- C17. The two routing flags are mutually exclusive after Apply: for every
Config c, also one whose Output is outside the three variants, toStderr and
alsoToStderr are never both true after Apply(c); for an Output outside the three
variants both are false, as for OutputFile. -/
theorem Apply_flags_exclusive (g : Globals) (c : Config) :
    ¬ ((Apply g c).logging.toStderr = true ∧ (Apply g c).logging.alsoToStderr = true) ∧
    (¬ isVariant c.Output →
      (Apply g c).logging.toStderr = false ∧ (Apply g c).logging.alsoToStderr = false) := by
  rw [Apply_toStderr, Apply_alsoToStderr]
  constructor
  · rintro ⟨h1, h2⟩
    rw [decide_eq_true_eq] at h1 h2
    rw [h1] at h2
    exact absurd h2 (by decide)
  · intro h
    unfold isVariant at h
    constructor
    · exact decide_eq_false (fun h1 => h (Or.inr (Or.inl h1)))
    · exact decide_eq_false (fun h2 => h (Or.inr (Or.inr h2)))

/-- Witness of C17: Output = 7 over a backend that had both flags set. -/
theorem Apply_flags_exclusive_witness :
    ¬ isVariant exampleOutOfRange.Output ∧
    (Apply exampleGlobals exampleOutOfRange).logging.toStderr = false ∧
    (Apply exampleGlobals exampleOutOfRange).logging.alsoToStderr = false :=
  have h : ¬ isVariant exampleOutOfRange.Output := by unfold isVariant; decide
  ⟨h, (Apply_flags_exclusive exampleGlobals exampleOutOfRange).2 h⟩

/-- C18. Apply overwrites rather than merges: for every Config c and one and the
same DefaultConfig, what Apply(c) writes (the two routing flags and the three
setter arguments, which make up logging, and logDirs) is the same from any two
prior backend states; applying c twice gives what applying it once gives, and
Apply(a) followed by Apply(b) gives what Apply(b) alone gives. -/
theorem Apply_overwrites (g1 g2 : Globals) (a b c : Config)
    (hd : g1.DefaultConfig = g2.DefaultConfig) :
    (Apply g1 c).logging = (Apply g2 c).logging ∧
    (Apply g1 c).logDirs = (Apply g2 c).logDirs ∧
    Apply (Apply g1 c) c = Apply g1 c ∧
    Apply (Apply g1 a) b = Apply g1 b := by
  refine ⟨?_, ?_, ?_, ?_⟩
  · rw [Apply_eq, Apply_eq, hd]
  · rw [Apply_eq, Apply_eq, hd]
  · rw [Apply_eq (Apply g1 c) c, Apply_DefaultConfig, ← Apply_eq]
  · rw [Apply_eq (Apply g1 a) b, Apply_DefaultConfig, ← Apply_eq]

/-- Witness of C18: the fully specified Config applied over two different backend
states with the same DefaultConfig. -/
theorem Apply_overwrites_witness :
    exampleGlobals.DefaultConfig = (Apply exampleGlobals exampleUnset).DefaultConfig ∧
    exampleGlobals.logging ≠ (Apply exampleGlobals exampleUnset).logging ∧
    (Apply exampleGlobals exampleSet).logging =
      (Apply (Apply exampleGlobals exampleUnset) exampleSet).logging ∧
    (Apply exampleGlobals exampleSet).logDirs =
      (Apply (Apply exampleGlobals exampleUnset) exampleSet).logDirs :=
  ⟨by decide, by decide,
   (Apply_overwrites exampleGlobals (Apply exampleGlobals exampleUnset)
     exampleUnset exampleSet exampleSet (by decide)).1,
   (Apply_overwrites exampleGlobals (Apply exampleGlobals exampleUnset)
     exampleUnset exampleSet exampleSet (by decide)).2.1⟩

/-- C19. A fully specified Config is independent of the defaults: for every
Config c with c.Verbosity != 0, c.StdErrThreshold != 0 and c.OutputDir != "", and
for any two values of DefaultConfig (and of the backend), Apply(c) writes the same
routing flags, the same three setter arguments and the same directory list. -/
theorem Apply_fully_specified (g1 g2 : Globals) (c : Config)
    (hv : c.Verbosity ≠ 0) (ht : c.StdErrThreshold ≠ 0) (ho : c.OutputDir ≠ []) :
    (Apply g1 c).logging = (Apply g2 c).logging ∧
    (Apply g1 c).logDirs = (Apply g2 c).logDirs := by
  rw [Apply_eq, Apply_eq]
  simp only [if_neg hv, if_neg ht, if_neg ho, and_self]

/-- Witness of C19: the fully specified Config under two different DefaultConfig
values. -/
theorem Apply_fully_specified_witness :
    exampleGlobals.DefaultConfig ≠ exampleGlobalsModules.DefaultConfig ∧
    (Apply exampleGlobals exampleSet).logging =
      (Apply exampleGlobalsModules exampleSet).logging ∧
    (Apply exampleGlobals exampleSet).logDirs =
      (Apply exampleGlobalsModules exampleSet).logDirs :=
  ⟨by decide,
   Apply_fully_specified exampleGlobals exampleGlobalsModules exampleSet
     (by decide) (by decide) (by decide)⟩

/-- The default of the switch in UnmarshalText: no case matches. -/
theorem UnmarshalText_of_other (u : GoString → GoString) (r : OutputType) (text : GoString)
    (h1 : ToLower u text ≠ lit "file") (h2 : ToLower u text ≠ lit "stderr")
    (h3 : ToLower u text ≠ lit "both") :
    OutputType.UnmarshalText u r text = (r, none) := by
  simp only [OutputType.UnmarshalText]
  rw [if_neg h1, if_neg h2, if_neg h3]

/-- The name of a defined variant is not "Unknown". -/
theorem String_ne_Unknown_of_isVariant (v : OutputType) (h : isVariant v) :
    OutputType.String v ≠ lit "Unknown" := by
  rcases h with h | h | h <;> subst h <;> decide

/-- C20. Decoding preserves validity: if the receiver holds one of the three
defined variants before UnmarshalText, it holds one of them afterwards, for every
input (so String() of a decoded value is "Unknown" only if the receiver was
already out of range); and applying UnmarshalText twice with the same input gives
the same receiver value as applying it once. -/
theorem UnmarshalText_preserves_variant (u : GoString → GoString) (r : OutputType)
    (text : GoString) :
    (isVariant r → isVariant (OutputType.UnmarshalText u r text).1) ∧
    (OutputType.String (OutputType.UnmarshalText u r text).1 = lit "Unknown" →
      ¬ isVariant r) ∧
    (OutputType.UnmarshalText u (OutputType.UnmarshalText u r text).1 text).1 =
      (OutputType.UnmarshalText u r text).1 := by
  have keep : isVariant r → isVariant (OutputType.UnmarshalText u r text).1 := by
    intro hr
    by_cases h1 : ToLower u text = lit "file"
    · rw [UnmarshalText_of_file u r text h1]; exact Or.inl rfl
    · by_cases h2 : ToLower u text = lit "stderr"
      · rw [UnmarshalText_of_stderr u r text h2]; exact Or.inr (Or.inl rfl)
      · by_cases h3 : ToLower u text = lit "both"
        · rw [UnmarshalText_of_both u r text h3]; exact Or.inr (Or.inr rfl)
        · rw [UnmarshalText_of_other u r text h1 h2 h3]; exact hr
  refine ⟨keep, ?_, ?_⟩
  · intro hs hr
    exact String_ne_Unknown_of_isVariant _ (keep hr) hs
  · by_cases h1 : ToLower u text = lit "file"
    · rw [UnmarshalText_of_file u r text h1, UnmarshalText_of_file u _ text h1]
    · by_cases h2 : ToLower u text = lit "stderr"
      · rw [UnmarshalText_of_stderr u r text h2, UnmarshalText_of_stderr u _ text h2]
      · by_cases h3 : ToLower u text = lit "both"
        · rw [UnmarshalText_of_both u r text h3, UnmarshalText_of_both u _ text h3]
        · rw [UnmarshalText_of_other u r text h1 h2 h3,
            UnmarshalText_of_other u r text h1 h2 h3]

/-- Witness of C20: a receiver holding OutputStdErr stays a variant on the
unrecognized input "stdout" and becomes OutputBoth on "BOTH". -/
theorem UnmarshalText_preserves_variant_witness :
    isVariant OutputStdErr ∧
    isVariant (OutputType.UnmarshalText id OutputStdErr (lit "stdout")).1 ∧
    isVariant (OutputType.UnmarshalText id OutputStdErr (lit "BOTH")).1 :=
  have h : isVariant OutputStdErr := Or.inr (Or.inl rfl)
  ⟨h, (UnmarshalText_preserves_variant id OutputStdErr (lit "stdout")).1 h,
   (UnmarshalText_preserves_variant id OutputStdErr (lit "BOTH")).1 h⟩

end Glog
